import Mathlib

/-!
Verification of the Parquet modular-encryption core: a shallow embedding of
the property builders (cpp/src/parquet/encryption_properties.h), of the footer
handling in SerializedFile::ParseMetaData and of the per-column decryptor
dispatch in SerializedRowGroup::GetColumnPageReader
(cpp/src/parquet/file_reader.cc). Machine integers are modelled as Nat with
explicit reduction modulo 2^32 where the C++ code computes in uint32.
-/

/-- Ciphers of Parquet modular encryption (ParquetCipher in parquet/types.h). -/
inductive ParquetCipher where
  | AES_GCM_V1
  | AES_GCM_CTR_V1
  deriving Repr, DecidableEq

/-- The AAD part of the encryption-algorithm descriptor stored in the file:
aad_prefix (may be empty), aad_file_unique (8 bytes generated at write time)
and the supply_aad_prefix flag. -/
structure AadMetadata where
  aadPrefix : String
  aadFileUnique : String
  supplyAadPrefix : Bool
  deriving Repr, DecidableEq

/-- EncryptionAlgorithm descriptor: cipher plus AAD metadata. -/
structure EncryptionAlgorithm where
  algorithm : ParquetCipher
  aad : AadMetadata
  deriving Repr, DecidableEq

/-- The ParquetException outcomes the embedded operations can raise. The
corrupt-footer errors keep the message of the C++ throw site. -/
inductive ParquetError where
  | corruptFooter (msg : String)
  | noDecryptionProperties
  | aadPrefixMismatch
  | aadPrefixMissing
  | cannotVerifyPlaintextFooter
  | footerSignatureInvalid
  | keyLengthInvalid
  | configError
  | columnPropertiesAlreadySet
  deriving Repr, DecidableEq

/-- schema::ColumnPath: an ordered list of name segments. -/
abbrev ColumnPath := List String

/-- schema::ColumnPath::FromDotString. -/
def ColumnPath.fromDotString (s : String) : ColumnPath := s.splitOn "."

/-- encryption_properties.h line 36. -/
def DEFAULT_ENCRYPTION_ALGORITHM : ParquetCipher := .AES_GCM_V1

/-- encryption_properties.h line 39. -/
def DEFAULT_ENCRYPTED_FOOTER : Bool := true

/-- encryption_properties.h line 40. -/
def DEFAULT_CHECK_SIGNATURE : Bool := true

/-- AES key lengths accepted by every builder: 16, 24 or 32 bytes. -/
def validKeyLength (key : String) : Bool :=
  (key.length == 16) || (key.length == 24) || (key.length == 32)

/-- ColumnEncryptionProperties (encryption_properties.h lines 43-116). -/
structure ColumnEncryptionProperties where
  encrypted : Bool
  encryptedWithFooterKey : Bool
  columnPath : Option ColumnPath
  key : String
  keyMetadata : String
  deriving Repr, DecidableEq

/-- ColumnEncryptionProperties::Builder state (lines 87-94). -/
structure ColumnEncryptionPropertiesBuilder where
  columnPath : Option ColumnPath
  encrypted : Bool
  key : String
  keyMetadata : String
  deriving Repr, DecidableEq

/-- The private constructor Builder(path, encrypted) (lines 93-94); the string
members key_ and key_metadata_ are default-initialized to empty strings. -/
def ColumnEncryptionPropertiesBuilder.ofPath (path : ColumnPath) :
    ColumnEncryptionPropertiesBuilder :=
  { columnPath := some path, encrypted := true, key := "", keyMetadata := "" }

/-- The string-overload constructor Builder(const std::string& name)
(lines 48-50). Its body, Builder(schema::ColumnPath::FromDotString(name), true);,
constructs a temporary Builder and discards it: it does not delegate to the other
constructor. The object under construction therefore keeps default-initialized
members: column_path_ is a null shared_ptr (none) and both strings are empty,
while the plain bool encrypted_ stays indeterminate and is modelled by the
parameter e. -/
def ColumnEncryptionPropertiesBuilder.ofName (name : String) (e : Bool) :
    ColumnEncryptionPropertiesBuilder :=
  { columnPath := none, encrypted := e, key := "", keyMetadata := "" }

/-- Builder::key (lines 60-66): an empty key returns the builder unchanged. -/
def ColumnEncryptionPropertiesBuilder.setKey
    (b : ColumnEncryptionPropertiesBuilder) (key : String) :
    ColumnEncryptionPropertiesBuilder :=
  if key = "" then b else { b with key := key }

/-- Modelled from the spec: the out-of-line ColumnEncryptionProperties
constructor that Builder::build (lines 82-85) calls is defined in
encryption_properties.cc, which is not among the sources. Per the spec (section
4.3), builders validate at build: a supplied key must be 16, 24 or 32 bytes (an
empty optional key counts as not set), and an encrypted column with no
per-column key is encrypted with the footer key. -/
def ColumnEncryptionPropertiesBuilder.build (b : ColumnEncryptionPropertiesBuilder) :
    Except ParquetError ColumnEncryptionProperties :=
  if b.key ≠ "" ∧ validKeyLength b.key = false then
    .error .keyLengthInvalid
  else
    .ok { encrypted := b.encrypted,
          encryptedWithFooterKey := b.encrypted && (b.key == ""),
          columnPath := b.columnPath,
          key := b.key,
          keyMetadata := b.keyMetadata }

/-- ColumnDecryptionProperties (encryption_properties.h lines 118-167). -/
structure ColumnDecryptionProperties where
  columnPath : ColumnPath
  key : String
  deriving Repr, DecidableEq

/-- ColumnDecryptionProperties::Builder state (lines 146-148). -/
structure ColumnDecryptionPropertiesBuilder where
  columnPath : ColumnPath
  key : String
  deriving Repr, DecidableEq

/-- Builder(path) (lines 126-127). -/
def ColumnDecryptionPropertiesBuilder.ofPath (path : ColumnPath) :
    ColumnDecryptionPropertiesBuilder :=
  { columnPath := path, key := "" }

/-- Builder::key (lines 133-139): an empty key returns the builder unchanged. -/
def ColumnDecryptionPropertiesBuilder.setKey
    (b : ColumnDecryptionPropertiesBuilder) (key : String) :
    ColumnDecryptionPropertiesBuilder :=
  if key = "" then b else { b with key := key }

/-- Modelled from the spec: the ColumnDecryptionProperties constructor that
Builder::build (lines 141-144) calls is defined in encryption_properties.cc, not
among the sources; per the spec a supplied key must be 16, 24 or 32 bytes and an
empty optional key counts as not set. -/
def ColumnDecryptionPropertiesBuilder.build (b : ColumnDecryptionPropertiesBuilder) :
    Except ParquetError ColumnDecryptionProperties :=
  if b.key ≠ "" ∧ validKeyLength b.key = false then
    .error .keyLengthInvalid
  else
    .ok { columnPath := b.columnPath, key := b.key }

/-- FileDecryptionProperties (encryption_properties.h lines 179-319). The AAD
prefix verifier and the key retriever are external callbacks; the model records
only whether each is configured. -/
structure FileDecryptionProperties where
  footerKey : String
  aadPrefix : String
  hasAadPrefixVerifier : Bool
  columnProperties : List (ColumnPath × ColumnDecryptionProperties)
  hasKeyRetriever : Bool
  checkPlaintextFooterIntegrity : Bool
  deriving Repr, DecidableEq

/-- FileDecryptionProperties::Builder state (lines 272-283). -/
structure FileDecryptionPropertiesBuilder where
  footerKey : String
  aadPrefix : String
  hasAadPrefixVerifier : Bool
  columnProperties : List (ColumnPath × ColumnDecryptionProperties)
  hasKeyRetriever : Bool
  checkPlaintextFooterIntegrity : Bool
  deriving Repr, DecidableEq

/-- Builder::Builder (line 183): check_plaintext_footer_integrity_ starts as
DEFAULT_CHECK_SIGNATURE; the other members are default-initialized. -/
def FileDecryptionPropertiesBuilder.init : FileDecryptionPropertiesBuilder :=
  { footerKey := "", aadPrefix := "", hasAadPrefixVerifier := false,
    columnProperties := [], hasKeyRetriever := false,
    checkPlaintextFooterIntegrity := DEFAULT_CHECK_SIGNATURE }

/-- Builder::footer_key (lines 191-198): an empty key returns the builder
unchanged. -/
def FileDecryptionPropertiesBuilder.setFooterKey
    (b : FileDecryptionPropertiesBuilder) (k : String) :
    FileDecryptionPropertiesBuilder :=
  if k = "" then b else { b with footerKey := k }

/-- Builder::column_properties (lines 206-217): an empty map returns the builder
unchanged; setting a non-empty map twice throws. -/
def FileDecryptionPropertiesBuilder.setColumnProperties
    (b : FileDecryptionPropertiesBuilder)
    (cp : List (ColumnPath × ColumnDecryptionProperties)) :
    Except ParquetError FileDecryptionPropertiesBuilder :=
  if cp.length = 0 then .ok b
  else if b.columnProperties.length ≠ 0 then .error .columnPropertiesAlreadySet
  else .ok { b with columnProperties := cp }

/-- Builder::disable_footer_signature_verification (lines 239-242). -/
def FileDecryptionPropertiesBuilder.disableFooterSignatureVerification
    (b : FileDecryptionPropertiesBuilder) : FileDecryptionPropertiesBuilder :=
  { b with checkPlaintextFooterIntegrity := false }

/-- Builder::aad_prefix (lines 248-255): an empty string returns the builder
unchanged. -/
def FileDecryptionPropertiesBuilder.setAadPrefix
    (b : FileDecryptionPropertiesBuilder) (p : String) :
    FileDecryptionPropertiesBuilder :=
  if p = "" then b else { b with aadPrefix := p }

/-- Modelled from the spec: the FileDecryptionProperties constructor that
Builder::build (lines 266-270) calls is defined in encryption_properties.cc, not
among the sources; per the spec a supplied footer key must be 16, 24 or 32 bytes
and an empty optional key counts as not set. -/
def FileDecryptionPropertiesBuilder.build (b : FileDecryptionPropertiesBuilder) :
    Except ParquetError FileDecryptionProperties :=
  if b.footerKey ≠ "" ∧ validKeyLength b.footerKey = false then
    .error .keyLengthInvalid
  else
    .ok { footerKey := b.footerKey, aadPrefix := b.aadPrefix,
          hasAadPrefixVerifier := b.hasAadPrefixVerifier,
          columnProperties := b.columnProperties,
          hasKeyRetriever := b.hasKeyRetriever,
          checkPlaintextFooterIntegrity := b.checkPlaintextFooterIntegrity }

/-- FileEncryptionProperties (encryption_properties.h lines 321-457). -/
structure FileEncryptionProperties where
  algorithm : EncryptionAlgorithm
  footerKey : String
  footerKeyMetadata : String
  encryptedFooter : Bool
  fileAad : String
  columnProperties : List (ColumnPath × ColumnEncryptionProperties)
  deriving Repr, DecidableEq

/-- FileEncryptionProperties::Builder state (lines 401-412). -/
structure FileEncryptionPropertiesBuilder where
  parquetCipher : ParquetCipher
  encryptedFooter : Bool
  footerKey : String
  footerKeyMetadata : String
  aadPrefix : String
  storeAadPrefixInFile : Bool
  columnProperties : List (ColumnPath × ColumnEncryptionProperties)
  deriving Repr, DecidableEq

/-- Builder::Builder(footer_key) (lines 325-330). -/
def FileEncryptionPropertiesBuilder.ofFooterKey (footerKey : String) :
    FileEncryptionPropertiesBuilder :=
  { parquetCipher := DEFAULT_ENCRYPTION_ALGORITHM,
    encryptedFooter := DEFAULT_ENCRYPTED_FOOTER,
    footerKey := footerKey, footerKeyMetadata := "",
    aadPrefix := "", storeAadPrefixInFile := false, columnProperties := [] }

/-- Builder::aad_prefix (lines 361-368): a non-empty prefix is recorded and
store_aad_prefix_in_file_ becomes true; an empty string returns the builder
unchanged. -/
def FileEncryptionPropertiesBuilder.setAadPrefix
    (b : FileEncryptionPropertiesBuilder) (p : String) :
    FileEncryptionPropertiesBuilder :=
  if p = "" then b else { b with aadPrefix := p, storeAadPrefixInFile := true }

/-- Builder::disable_store_aad_prefix_storage (lines 372-377). The body asserts
DCHECK(!aad_prefix_.empty()) before clearing the flag; the assertion firing is
modelled as the spec's ConfigError. -/
def FileEncryptionPropertiesBuilder.disableStoreAadPrefixStorage
    (b : FileEncryptionPropertiesBuilder) :
    Except ParquetError FileEncryptionPropertiesBuilder :=
  if b.aadPrefix = "" then .error .configError
  else .ok { b with storeAadPrefixInFile := false }

/-- Builder::column_properties (lines 382-393): an empty map returns the builder
unchanged; setting a non-empty map twice throws. -/
def FileEncryptionPropertiesBuilder.setColumnProperties
    (b : FileEncryptionPropertiesBuilder)
    (cp : List (ColumnPath × ColumnEncryptionProperties)) :
    Except ParquetError FileEncryptionPropertiesBuilder :=
  if cp.length = 0 then .ok b
  else if b.columnProperties.length ≠ 0 then .error .columnPropertiesAlreadySet
  else .ok { b with columnProperties := cp }

/-- Modelled from the spec: the FileEncryptionProperties constructor that
Builder::build (lines 395-399) calls is defined in encryption_properties.cc, not
among the sources. Per the spec: the footer key length must be 16, 24 or 32
bytes; aad_file_unique is 8 random bytes generated at write time (a parameter
here); the stored encryption-algorithm descriptor carries the AAD prefix exactly
when store_aad_prefix_in_file is set, supply_aad_prefix is set exactly when a
prefix was used but not stored, and file_aad = aad_prefix || aad_file_unique. -/
def FileEncryptionPropertiesBuilder.build (b : FileEncryptionPropertiesBuilder)
    (aadFileUnique : String) : Except ParquetError FileEncryptionProperties :=
  if validKeyLength b.footerKey = false then
    .error .keyLengthInvalid
  else
    .ok { algorithm :=
            { algorithm := b.parquetCipher,
              aad := { aadPrefix := if b.storeAadPrefixInFile then b.aadPrefix else "",
                       aadFileUnique := aadFileUnique,
                       supplyAadPrefix :=
                         (!(b.aadPrefix == "")) && (!b.storeAadPrefixInFile) } },
          footerKey := b.footerKey,
          footerKeyMetadata := b.footerKeyMetadata,
          encryptedFooter := b.encryptedFooter,
          fileAad := b.aadPrefix ++ aadFileUnique,
          columnProperties := b.columnProperties }

/-- file_reader.cc line 47. -/
def FOOTER_SIZE : Nat := 8

/-- The magic bytes P A R 1 (file_reader.cc line 48). -/
def PAR1 : List Nat := [80, 65, 82, 49]

/-- The magic bytes P A R E (file_reader.cc line 49). -/
def PARE : List Nat := [80, 65, 82, 69]

/-- 2^32: uint32 arithmetic reduces modulo this. -/
def U32_MOD : Nat := 4294967296

/-- The little-endian uint32 at offset i of the file bytes. -/
def readLE32At (file : List Nat) (i : Nat) : Nat :=
  file.getD i 0 + 256 * file.getD (i + 1) 0 + 65536 * file.getD (i + 2) 0 +
    16777216 * file.getD (i + 3) 0

/-- The four bytes at offset i of the file bytes. -/
def magicAt (file : List Nat) (i : Nat) : List Nat :=
  [file.getD i 0, file.getD (i + 1) 0, file.getD (i + 2) 0, file.getD (i + 3) 0]

/-- Which footer variant the magic selected. -/
inductive FooterVariant where
  | plaintext
  | encryptedFooter
  deriving Repr, DecidableEq

/-- The footer checks at the head of SerializedFile::ParseMetaData
(file_reader.cc lines 212-235, 307-318 and 388-390): the file-size check, the
magic dispatch and the stored-length check of each variant, over an ideal
random-access source (ReadAt of a range inside the file returns all requested
bytes). The stored length is the little-endian uint32 directly before the
4-byte magic. In the C++, FOOTER_SIZE + metadata_len is a uint32 sum, so it
wraps modulo 2^32 before the comparison with the int64 file size; the model
reproduces that wrap. On success the footer variant and the stored length are
handed to the rest of ParseMetaData. -/
def checkFooterStage (file : List Nat) : Except ParquetError (FooterVariant × Nat) :=
  let fileSize := file.length
  if fileSize < FOOTER_SIZE then
    .error (.corruptFooter "Corrupted file, smaller than file footer")
  else
    let magic := magicAt file (fileSize - 4)
    let storedLen := readLE32At file (fileSize - FOOTER_SIZE)
    if magic = PAR1 then
      if (FOOTER_SIZE + storedLen) % U32_MOD > fileSize then
        .error (.corruptFooter "Invalid parquet file. File is less than file metadata size.")
      else
        .ok (.plaintext, storedLen)
    else if magic = PARE then
      if (FOOTER_SIZE + storedLen) % U32_MOD > fileSize then
        .error (.corruptFooter "Invalid parquet file. File is less than file metadata size.")
      else
        .ok (.encryptedFooter, storedLen)
    else
      .error (.corruptFooter "Invalid parquet file. Corrupt footer.")

/-- True exactly for the corrupt-footer family of errors. -/
def ParquetError.isCorruptFooterError : ParquetError → Bool
  | .corruptFooter _ => true
  | _ => false

/-- The observable state ParseMetaData leaves on the InternalFileDecryptor on
success: the recorded file AAD, cipher and footer key metadata, plus the list
of prefixes the configured AAD prefix verifier was invoked with (the class
itself lives in internal_file_decryptor.cc, not among the sources; only the
recorded values matter here). -/
structure FileDecryptorState where
  fileAad : String
  algorithm : ParquetCipher
  footerKeyMetadata : String
  verifierCalls : List String
  deriving Repr, DecidableEq

/-- The AAD-prefix reconciliation shared by both footer variants of
ParseMetaData (file_reader.cc lines 263-284 and 345-365): the local aad_prefix
starts from the decryption properties; when the file stores a non-empty prefix
it must equal a non-empty supplied one, the stored prefix is adopted, and a
configured verifier is invoked with it; afterwards, supply_aad_prefix with a
still-empty prefix throws. Returns the final prefix together with the list of
prefixes the verifier was invoked with. -/
def reconcileAadPrefix (propsAadPrefix : String) (hasVerifier : Bool)
    (aad : AadMetadata) : Except ParquetError (String × List String) :=
  let step : Except ParquetError (String × List String) :=
    if aad.aadPrefix ≠ "" then
      if propsAadPrefix ≠ "" ∧ propsAadPrefix ≠ aad.aadPrefix then
        .error .aadPrefixMismatch
      else
        .ok (aad.aadPrefix, if hasVerifier then [aad.aadPrefix] else [])
    else
      .ok (propsAadPrefix, [])
  match step with
  | .error e => .error e
  | .ok (finalPfx, calls) =>
    if aad.supplyAadPrefix = true ∧ finalPfx = "" then
      .error .aadPrefixMissing
    else
      .ok (finalPfx, calls)

/-- The inputs of the encryption handling on the PAR1 path that come from
collaborators outside the sources (Thrift parsing in metadata.cc): the stored
metadata length, the length FileMetaData::Make consumed (both uint32), the
parsed encryption-algorithm descriptor, the footer signing key metadata, and
the outcome of the cryptographic verify call. -/
structure PlaintextFooterEncryptionInput where
  metadataLen : Nat
  readMetadataLen : Nat
  algo : EncryptionAlgorithm
  footerSigningKeyMetadata : String
  verifyOk : Bool
  deriving Repr, DecidableEq

/-- The encryption branch of the PAR1 (plaintext footer) path of
SerializedFile::ParseMetaData (file_reader.cc lines 256-306), entered when the
parsed metadata declares an encryption algorithm: require decryption
properties, reconcile the AAD prefix, record file_aad = prefix ||
aad_file_unique, and when check_plaintext_footer_integrity is set require the
stored length to exceed the consumed length by exactly 28 (uint32 subtraction)
and the 28-byte nonce-and-tag trailer to verify. -/
def parsePlaintextFooterEncryption (props : Option FileDecryptionProperties)
    (inp : PlaintextFooterEncryptionInput) : Except ParquetError FileDecryptorState :=
  match props with
  | none => .error .noDecryptionProperties
  | some p =>
    match reconcileAadPrefix p.aadPrefix p.hasAadPrefixVerifier inp.algo.aad with
    | .error e => .error e
    | .ok (finalPfx, calls) =>
      let st : FileDecryptorState :=
        { fileAad := finalPfx ++ inp.algo.aad.aadFileUnique,
          algorithm := inp.algo.algorithm,
          footerKeyMetadata := inp.footerSigningKeyMetadata,
          verifierCalls := calls }
      if p.checkPlaintextFooterIntegrity then
        if (inp.metadataLen + U32_MOD - inp.readMetadataLen) % U32_MOD ≠ 28 then
          .error .cannotVerifyPlaintextFooter
        else if inp.verifyOk = false then
          .error .footerSignatureInvalid
        else
          .ok st
      else
        .ok st

/-- The inputs of the PARE path that come from collaborators outside the
sources: the parsed encryption-algorithm descriptor and the key metadata of
the parsed FileCryptoMetaData. -/
structure EncryptedFooterInput where
  algo : EncryptionAlgorithm
  keyMetadata : String
  deriving Repr, DecidableEq

/-- The encryption handling of the PARE (encrypted footer) path of
SerializedFile::ParseMetaData (file_reader.cc lines 333-370): require
decryption properties, reconcile the AAD prefix exactly as on the PAR1 path,
and record file_aad = prefix || aad_file_unique, the cipher and the footer key
metadata on the decryptor before the footer is decrypted. -/
def parseEncryptedFooterEncryption (props : Option FileDecryptionProperties)
    (inp : EncryptedFooterInput) : Except ParquetError FileDecryptorState :=
  match props with
  | none => .error .noDecryptionProperties
  | some p =>
    match reconcileAadPrefix p.aadPrefix p.hasAadPrefixVerifier inp.algo.aad with
    | .error e => .error e
    | .ok (finalPfx, calls) =>
      .ok { fileAad := finalPfx ++ inp.algo.aad.aadFileUnique,
            algorithm := inp.algo.algorithm,
            footerKeyMetadata := inp.keyMetadata,
            verifierCalls := calls }

/-- ColumnCryptoMetaData of a column chunk as stored in the file
(crypto_metadata in file_reader.cc lines 124-156). -/
structure ColumnCryptoMetaData where
  encryptedWithFooterKey : Bool
  pathInSchema : ColumnPath
  keyMetadata : String
  deriving Repr, DecidableEq

/-- The decryptor handles InternalFileDecryptor vends (its implementation is in
internal_file_decryptor.cc, not among the sources); each tag records which
getter GetColumnPageReader called and with which arguments. -/
inductive Decryptor where
  | footerMetaDecryptor
  | footerDataDecryptor
  | columnMetaDecryptor (columnPath : ColumnPath) (keyMetadata : String)
  | columnDataDecryptor (columnPath : ColumnPath) (keyMetadata : String)
  deriving Repr, DecidableEq

/-- The fields of the column-chunk metadata that
SerializedRowGroup::GetColumnPageReader consults. -/
structure ColumnChunkInfo where
  dataPageOffset : Int
  dictionaryPageOffset : Int
  hasDictionaryPage : Bool
  totalCompressedSize : Int
  cryptoMetadata : Option ColumnCryptoMetaData
  deriving Repr, DecidableEq

/-- file_reader.cc line 52. -/
def kMaxDictHeaderSize : Int := 100

/-- The arguments of the PageReader::Open call GetColumnPageReader ends in:
the stream range, the ordinals and the optional (meta, data) decryptor pair. -/
structure PageReaderOpenCall where
  colStart : Int
  colLength : Int
  rowGroupOrdinal : Int
  columnOrdinal : Int
  decryptors : Option (Decryptor × Decryptor)
  deriving Repr, DecidableEq

/-- SerializedRowGroup::GetColumnPageReader (file_reader.cc lines 101-166):
compute the stream range (with the PARQUET-816 padding when the writer version
is older than the fix, passed as versionLt816 with the source size), then
dispatch on the chunk's crypto_metadata: absent means a pass-through page
reader with no decryptors; encrypted_with_footer_key means the footer meta and
data decryptors; otherwise the column meta and data decryptors resolved from
the chunk's path_in_schema and key_metadata. -/
def GetColumnPageReader (col : ColumnChunkInfo) (rowGroupOrdinal : Int)
    (columnOrdinal : Int) (versionLt816 : Bool) (sourceSize : Int) :
    PageReaderOpenCall :=
  let colStart :=
    if col.hasDictionaryPage ∧ col.dataPageOffset > col.dictionaryPageOffset then
      col.dictionaryPageOffset
    else
      col.dataPageOffset
  let colLength :=
    if versionLt816 then
      col.totalCompressedSize +
        min kMaxDictHeaderSize (sourceSize - (colStart + col.totalCompressedSize))
    else
      col.totalCompressedSize
  let decryptors :=
    match col.cryptoMetadata with
    | none => none
    | some cm =>
      if cm.encryptedWithFooterKey then
        some (.footerMetaDecryptor, .footerDataDecryptor)
      else
        some (.columnMetaDecryptor cm.pathInSchema cm.keyMetadata,
              .columnDataDecryptor cm.pathInSchema cm.keyMetadata)
  { colStart := colStart, colLength := colLength,
    rowGroupOrdinal := rowGroupOrdinal, columnOrdinal := columnOrdinal,
    decryptors := decryptors }

/-- A 100-byte file whose last 8 bytes store the length FF FF FF FF and the
magic PAR1: stored metadata length 4294967295 in a 100-byte file. -/
def overflowFile : List Nat := List.replicate 92 0 ++ [255, 255, 255, 255] ++ PAR1

/-- Decryption properties for the C6 counterexample: a caller-supplied AAD
prefix and a configured verifier, no stored prefix in the file. -/
def c6Props : FileDecryptionProperties :=
  { footerKey := "0123456789012345", aadPrefix := "tester",
    hasAadPrefixVerifier := true, columnProperties := [],
    hasKeyRetriever := false, checkPlaintextFooterIntegrity := false }

/-- PAR1-path input for the C6 counterexample: the file stores no AAD prefix
and sets supply_aad_prefix. -/
def c6Input : PlaintextFooterEncryptionInput :=
  { metadataLen := 128, readMetadataLen := 100,
    algo := { algorithm := .AES_GCM_V1,
              aad := { aadPrefix := "", aadFileUnique := "abcdefgh",
                       supplyAadPrefix := true } },
    footerSigningKeyMetadata := "", verifyOk := true }

/-- Decryption properties supplying the prefix beta (used by the C2 witness). -/
def c2Props : FileDecryptionProperties :=
  { footerKey := "", aadPrefix := "beta", hasAadPrefixVerifier := false,
    columnProperties := [], hasKeyRetriever := false,
    checkPlaintextFooterIntegrity := false }

/-- PAR1-path input storing the prefix alpha (used by the C2 witness). -/
def c2InputA : PlaintextFooterEncryptionInput :=
  { metadataLen := 128, readMetadataLen := 100,
    algo := { algorithm := .AES_GCM_V1,
              aad := { aadPrefix := "alpha", aadFileUnique := "12345678",
                       supplyAadPrefix := false } },
    footerSigningKeyMetadata := "", verifyOk := true }

/-- PARE-path input storing the prefix alpha (used by the C2 witness). -/
def c2InputB : EncryptedFooterInput :=
  { algo := { algorithm := .AES_GCM_V1,
              aad := { aadPrefix := "alpha", aadFileUnique := "12345678",
                       supplyAadPrefix := false } },
    keyMetadata := "kf" }

/-- Decryption properties with integrity checking on (used by the C4 witness). -/
def c4Props : FileDecryptionProperties :=
  { footerKey := "0123456789012345", aadPrefix := "tester",
    hasAadPrefixVerifier := false, columnProperties := [],
    hasKeyRetriever := false, checkPlaintextFooterIntegrity := true }

/-- PAR1-path input whose stored length exceeds the consumed length by exactly
28 but whose trailer verification fails (used by the C4 witness). -/
def c4Input : PlaintextFooterEncryptionInput :=
  { metadataLen := 128, readMetadataLen := 100,
    algo := { algorithm := .AES_GCM_V1,
              aad := { aadPrefix := "tester", aadFileUnique := "12345678",
                       supplyAadPrefix := false } },
    footerSigningKeyMetadata := "", verifyOk := false }

/-- Decryption properties with a configured verifier and no supplied prefix
(used by the witness of the amended C6). -/
def c6aProps : FileDecryptionProperties :=
  { footerKey := "", aadPrefix := "", hasAadPrefixVerifier := true,
    columnProperties := [], hasKeyRetriever := false,
    checkPlaintextFooterIntegrity := false }

/-- PAR1-path input storing the prefix tester (used by the witness of the
amended C6). -/
def c6aInput : PlaintextFooterEncryptionInput :=
  { metadataLen := 128, readMetadataLen := 128,
    algo := { algorithm := .AES_GCM_V1,
              aad := { aadPrefix := "tester", aadFileUnique := "abcdefgh",
                       supplyAadPrefix := false } },
    footerSigningKeyMetadata := "", verifyOk := true }

/-- A concrete built column-decryption entry (used by the C9 witness map). -/
def sampleColumnDecryption : ColumnDecryptionProperties :=
  { columnPath := ["double_field"], key := "1234567890123450" }

/-- A file-decryption builder that already holds a non-empty column map (used
by the C9 witness). -/
def c9Builder : FileDecryptionPropertiesBuilder :=
  { FileDecryptionPropertiesBuilder.init with
      columnProperties := [(["double_field"], sampleColumnDecryption)] }

/-- A file-encryption builder with the AAD prefix tester set (used by the C8
witness). -/
def c8Builder : FileEncryptionPropertiesBuilder :=
  (FileEncryptionPropertiesBuilder.ofFooterKey "0123456789012345").setAadPrefix "tester"

/-! ## Helper lemmas -/

/-- uint32 subtraction m - r agrees with Nat subtraction when r ≤ m < 2^32. -/
theorem u32_sub_mod (m r : Nat) (hle : r ≤ m) (hlt : m < U32_MOD) :
    (m + U32_MOD - r) % U32_MOD = m - r := by
  have h : m + U32_MOD - r = (m - r) + U32_MOD := by omega
  rw [h, Nat.add_mod_right, Nat.mod_eq_of_lt (by omega)]

/-- Reconciliation fails with the mismatch error exactly when the stored and
the supplied prefixes, both non-empty, differ. -/
theorem reconcile_mismatch_iff (pp : String) (hv : Bool) (aad : AadMetadata)
    (h1 : aad.aadPrefix ≠ "") (h2 : pp ≠ "") :
    reconcileAadPrefix pp hv aad = .error .aadPrefixMismatch ↔ pp ≠ aad.aadPrefix := by
  by_cases heq : pp = aad.aadPrefix
  · simp [reconcileAadPrefix, h1, h2, heq]
  · simp [reconcileAadPrefix, h1, h2, heq]

/-- Reconciliation fails with the missing error when the file stores no prefix,
supply_aad_prefix is set and the caller supplies none. -/
theorem reconcile_missing (pp : String) (hv : Bool) (aad : AadMetadata)
    (h1 : aad.aadPrefix = "") (h2 : aad.supplyAadPrefix = true) (h3 : pp = "") :
    reconcileAadPrefix pp hv aad = .error .aadPrefixMissing := by
  simp [reconcileAadPrefix, h1, h2, h3]

/-- A successful reconciliation with a non-empty stored prefix adopts the
stored prefix. -/
theorem reconcile_adopts (pp : String) (hv : Bool) (aad : AadMetadata)
    (pfx : String) (calls : List String) (h1 : aad.aadPrefix ≠ "")
    (h : reconcileAadPrefix pp hv aad = .ok (pfx, calls)) :
    pfx = aad.aadPrefix := by
  by_cases hcmp : pp ≠ "" ∧ pp ≠ aad.aadPrefix
  · simp [reconcileAadPrefix, h1, hcmp] at h
  · simp [reconcileAadPrefix, h1, hcmp] at h
    exact h.1.symm

/-- A successful reconciliation records a verifier invocation exactly when the
file stores a non-empty prefix and a verifier is configured. -/
theorem reconcile_calls (pp : String) (hv : Bool) (aad : AadMetadata)
    (pfx : String) (calls : List String)
    (h : reconcileAadPrefix pp hv aad = .ok (pfx, calls)) :
    calls = if aad.aadPrefix ≠ "" ∧ hv = true then [aad.aadPrefix] else [] := by
  by_cases h1 : aad.aadPrefix = ""
  · by_cases h2 : aad.supplyAadPrefix = true ∧ pp = ""
    · simp [reconcileAadPrefix, h1, h2] at h
    · simp [reconcileAadPrefix, h1, h2] at h
      simp only [h1, ne_eq, not_true_eq_false, false_and, if_false]
      simp_all
  · by_cases hcmp : pp ≠ "" ∧ pp ≠ aad.aadPrefix
    · simp [reconcileAadPrefix, h1, hcmp] at h
    · simp [reconcileAadPrefix, h1, hcmp] at h
      obtain ⟨hp, hc⟩ := h
      subst hp
      rw [← hc]
      simp [h1]

/-! ## Claim theorems -/

/-- C1: for every column chunk read through
SerializedRowGroup::GetColumnPageReader, if the chunk's crypto_metadata is
absent the page reader is opened with no decryptors (pass-through); if it is
present with encrypted_with_footer_key the page reader receives the footer
meta-decryptor and footer data-decryptor pair; otherwise it receives the
column meta-decryptor and column data-decryptor resolved from the chunk's
path_in_schema and key_metadata. -/
theorem C1_column_page_reader_decryptor_dispatch
    (col : ColumnChunkInfo) (rg ci : Int) (v : Bool) (sz : Int) :
    (col.cryptoMetadata = none →
      (GetColumnPageReader col rg ci v sz).decryptors = none) ∧
    (∀ cm, col.cryptoMetadata = some cm → cm.encryptedWithFooterKey = true →
      (GetColumnPageReader col rg ci v sz).decryptors =
        some (.footerMetaDecryptor, .footerDataDecryptor)) ∧
    (∀ cm, col.cryptoMetadata = some cm → cm.encryptedWithFooterKey = false →
      (GetColumnPageReader col rg ci v sz).decryptors =
        some (.columnMetaDecryptor cm.pathInSchema cm.keyMetadata,
              .columnDataDecryptor cm.pathInSchema cm.keyMetadata)) := by
  refine ⟨?_, ?_, ?_⟩
  · intro h
    simp [GetColumnPageReader, h]
  · intro cm h hf
    simp [GetColumnPageReader, h, hf]
  · intro cm h hf
    simp [GetColumnPageReader, h, hf]

/-- Witness for C1 at a concrete column chunk encrypted with the footer key. -/
theorem C1_column_page_reader_decryptor_dispatch_witness :
    (GetColumnPageReader
        { dataPageOffset := 40, dictionaryPageOffset := 4,
          hasDictionaryPage := true, totalCompressedSize := 50,
          cryptoMetadata := some { encryptedWithFooterKey := true,
                                   pathInSchema := ["double_field"],
                                   keyMetadata := "kc1" } }
        0 0 false 1000).decryptors =
      some (.footerMetaDecryptor, .footerDataDecryptor) :=
  (C1_column_page_reader_decryptor_dispatch _ 0 0 false 1000).2.1 _ rfl rfl

/-- C5 (code bug): the intended corrupt-footer checks fire on a too-small
file, on a bad magic and on a plainly oversized stored length, but a 100-byte
PAR1 file can store the metadata length 4294967295, for which 8 + 4294967295
far exceeds the file size, yet the uint32 sum FOOTER_SIZE + metadata_len wraps
to 7 and the corrupt-footer check passes: checkFooterStage raises no
corrupt-footer error on that input, against the claim. -/
theorem C5_corrupt_footer_length_overflow :
    checkFooterStage [80, 65, 82, 49] =
      .error (.corruptFooter "Corrupted file, smaller than file footer") ∧
    checkFooterStage [0, 0, 0, 0, 0, 0, 0, 0] =
      .error (.corruptFooter "Invalid parquet file. Corrupt footer.") ∧
    checkFooterStage ([0, 0, 3, 0, 0, 0] ++ PAR1) =
      .error
        (.corruptFooter "Invalid parquet file. File is less than file metadata size.") ∧
    overflowFile.length = 100 ∧
    readLE32At overflowFile (overflowFile.length - FOOTER_SIZE) = 4294967295 ∧
    FOOTER_SIZE + 4294967295 > overflowFile.length ∧
    checkFooterStage overflowFile = .ok (.plaintext, 4294967295) := by
  refine ⟨by rfl, by rfl, by rfl, by decide, by decide, by decide, by rfl⟩

/-- C9: for the file encryption and the file decryption builder alike, a
second call to column_properties with a non-empty map after a non-empty map
has been set throws, while a call with an empty map is a no-op that leaves the
previously set column properties unchanged. -/
theorem C9_column_properties_set_once :
    (∀ (b : FileEncryptionPropertiesBuilder) cp, b.columnProperties ≠ [] →
      cp ≠ [] → b.setColumnProperties cp = .error .columnPropertiesAlreadySet) ∧
    (∀ (b : FileEncryptionPropertiesBuilder), b.setColumnProperties [] = .ok b) ∧
    (∀ (b : FileDecryptionPropertiesBuilder) cp, b.columnProperties ≠ [] →
      cp ≠ [] → b.setColumnProperties cp = .error .columnPropertiesAlreadySet) ∧
    (∀ (b : FileDecryptionPropertiesBuilder), b.setColumnProperties [] = .ok b) := by
  refine ⟨?_, ?_, ?_, ?_⟩
  · intro b cp h1 h2
    simp [FileEncryptionPropertiesBuilder.setColumnProperties,
      List.length_eq_zero, h1, h2]
  · intro b
    simp [FileEncryptionPropertiesBuilder.setColumnProperties]
  · intro b cp h1 h2
    simp [FileDecryptionPropertiesBuilder.setColumnProperties,
      List.length_eq_zero, h1, h2]
  · intro b
    simp [FileDecryptionPropertiesBuilder.setColumnProperties]

/-- Witness for C9: a builder that already holds a non-empty column map
rejects a second non-empty map. -/
theorem C9_column_properties_set_once_witness :
    c9Builder.setColumnProperties [(["float_field"], sampleColumnDecryption)] =
      .error .columnPropertiesAlreadySet :=
  C9_column_properties_set_once.2.2.1 c9Builder
    [(["float_field"], sampleColumnDecryption)] (by simp [c9Builder]) (by simp)

/-- C10: for every column name string, constructing ColumnEncryptionProperties
through the string-overload Builder and calling build yields a properties
object whose column_path() is the null pointer, for either value of the
indeterminate encrypted_ flag; the name itself is discarded entirely, since
the parsed path only reaches a discarded temporary builder. -/
theorem C10_string_builder_null_column_path (name : String) (e : Bool) :
    (ColumnEncryptionPropertiesBuilder.ofName name e).build =
      .ok { encrypted := e, encryptedWithFooterKey := e, columnPath := none,
            key := "", keyMetadata := "" } ∧
    ∀ other : String, ColumnEncryptionPropertiesBuilder.ofName name e =
      ColumnEncryptionPropertiesBuilder.ofName other e := by
  constructor
  · simp [ColumnEncryptionPropertiesBuilder.ofName,
      ColumnEncryptionPropertiesBuilder.build]
  · intro other
    rfl

/-- C7: every property builder rejects at build, with the key-length error, a
supplied key whose length is not 16, 24 or 32 bytes, while passing an empty
string for an optional key leaves the builder unchanged (so build succeeds as
if the key had never been set); a builder whose optional key was never set
builds successfully. -/
theorem C7_key_length_validation :
    (∀ (b : ColumnEncryptionPropertiesBuilder) k, k ≠ "" →
      validKeyLength k = false → (b.setKey k).build = .error .keyLengthInvalid) ∧
    (∀ (b : ColumnEncryptionPropertiesBuilder), b.setKey "" = b) ∧
    (∀ (b : ColumnDecryptionPropertiesBuilder) k, k ≠ "" →
      validKeyLength k = false → (b.setKey k).build = .error .keyLengthInvalid) ∧
    (∀ (b : ColumnDecryptionPropertiesBuilder), b.setKey "" = b) ∧
    (∀ (b : FileDecryptionPropertiesBuilder) k, k ≠ "" →
      validKeyLength k = false →
      (b.setFooterKey k).build = .error .keyLengthInvalid) ∧
    (∀ (b : FileDecryptionPropertiesBuilder), b.setFooterKey "" = b) ∧
    (∀ k u, validKeyLength k = false →
      (FileEncryptionPropertiesBuilder.ofFooterKey k).build u =
        .error .keyLengthInvalid) ∧
    (∀ path, (ColumnDecryptionPropertiesBuilder.ofPath path).build =
      .ok { columnPath := path, key := "" }) := by
  refine ⟨?_, ?_, ?_, ?_, ?_, ?_, ?_, ?_⟩
  · intro b k h1 h2
    simp [ColumnEncryptionPropertiesBuilder.setKey,
      ColumnEncryptionPropertiesBuilder.build, h1, h2]
  · intro b
    simp [ColumnEncryptionPropertiesBuilder.setKey]
  · intro b k h1 h2
    simp [ColumnDecryptionPropertiesBuilder.setKey,
      ColumnDecryptionPropertiesBuilder.build, h1, h2]
  · intro b
    simp [ColumnDecryptionPropertiesBuilder.setKey]
  · intro b k h1 h2
    simp [FileDecryptionPropertiesBuilder.setFooterKey,
      FileDecryptionPropertiesBuilder.build, h1, h2]
  · intro b
    simp [FileDecryptionPropertiesBuilder.setFooterKey]
  · intro k u h
    simp [FileEncryptionPropertiesBuilder.ofFooterKey,
      FileEncryptionPropertiesBuilder.build, h]
  · intro path
    simp [ColumnDecryptionPropertiesBuilder.ofPath,
      ColumnDecryptionPropertiesBuilder.build]

/-- Witness for C7: a 17-byte column key is rejected at build. -/
theorem C7_key_length_validation_witness :
    ((ColumnEncryptionPropertiesBuilder.ofPath
        ["double_field"]).setKey "12345678901234567").build =
      .error .keyLengthInvalid :=
  C7_key_length_validation.1 _ "12345678901234567" (by decide) (by decide)

/-- C8: calling disable_store_aad_prefix_storage on a file-encryption builder
with no AAD prefix set raises the configuration error; with a prefix set the
call succeeds (clearing store_aad_prefix_in_file) and the built properties do
not store the prefix in the file: the stored encryption-algorithm descriptor
carries an empty prefix and sets supply_aad_prefix. -/
theorem C8_disable_store_aad_requires_set
    (b : FileEncryptionPropertiesBuilder) (u : String) :
    (b.aadPrefix = "" →
      b.disableStoreAadPrefixStorage = .error .configError) ∧
    (b.aadPrefix ≠ "" →
      b.disableStoreAadPrefixStorage =
        .ok { b with storeAadPrefixInFile := false } ∧
      ∀ props,
        ({ b with storeAadPrefixInFile := false } :
            FileEncryptionPropertiesBuilder).build u = .ok props →
        props.algorithm.aad.aadPrefix = "" ∧
        props.algorithm.aad.supplyAadPrefix = true) := by
  constructor
  · intro h
    simp [FileEncryptionPropertiesBuilder.disableStoreAadPrefixStorage, h]
  · intro h
    constructor
    · simp [FileEncryptionPropertiesBuilder.disableStoreAadPrefixStorage, h]
    · intro props hp
      by_cases hk : validKeyLength b.footerKey = false
      · simp [FileEncryptionPropertiesBuilder.build, hk] at hp
      · simp [FileEncryptionPropertiesBuilder.build, hk] at hp
        rw [← hp]
        simp [h]

/-- Witness for C8: with prefix tester set, the call succeeds and clears the
storage flag. -/
theorem C8_disable_store_aad_requires_set_witness :
    c8Builder.disableStoreAadPrefixStorage =
      .ok { c8Builder with storeAadPrefixInFile := false } :=
  ((C8_disable_store_aad_requires_set c8Builder "abcdefgh").2 (by decide)).1

/-- A reconciliation error propagates out of the PAR1 encryption handling. -/
theorem parseA_reconcile_error (p : FileDecryptionProperties)
    (inp : PlaintextFooterEncryptionInput) (e : ParquetError)
    (h : reconcileAadPrefix p.aadPrefix p.hasAadPrefixVerifier inp.algo.aad =
      .error e) :
    parsePlaintextFooterEncryption (some p) inp = .error e := by
  simp [parsePlaintextFooterEncryption, h]

/-- A reconciliation error propagates out of the PARE encryption handling. -/
theorem parseB_reconcile_error (p : FileDecryptionProperties)
    (inp : EncryptedFooterInput) (e : ParquetError)
    (h : reconcileAadPrefix p.aadPrefix p.hasAadPrefixVerifier inp.algo.aad =
      .error e) :
    parseEncryptedFooterEncryption (some p) inp = .error e := by
  simp [parseEncryptedFooterEncryption, h]

/-- After a successful reconciliation the PAR1 encryption handling either
fails one of the two integrity checks or succeeds with the reconciled
values. -/
theorem parseA_after_reconcile (p : FileDecryptionProperties)
    (inp : PlaintextFooterEncryptionInput) (pfx : String) (calls : List String)
    (h : reconcileAadPrefix p.aadPrefix p.hasAadPrefixVerifier inp.algo.aad =
      .ok (pfx, calls)) :
    parsePlaintextFooterEncryption (some p) inp =
      .error .cannotVerifyPlaintextFooter ∨
    parsePlaintextFooterEncryption (some p) inp =
      .error .footerSignatureInvalid ∨
    parsePlaintextFooterEncryption (some p) inp =
      .ok { fileAad := pfx ++ inp.algo.aad.aadFileUnique,
            algorithm := inp.algo.algorithm,
            footerKeyMetadata := inp.footerSigningKeyMetadata,
            verifierCalls := calls } := by
  simp only [parsePlaintextFooterEncryption, h]
  split
  · split
    · exact Or.inl rfl
    · split
      · exact Or.inr (Or.inl rfl)
      · exact Or.inr (Or.inr rfl)
  · exact Or.inr (Or.inr rfl)

/-- After a successful reconciliation the PARE encryption handling succeeds
with the reconciled values. -/
theorem parseB_after_reconcile (p : FileDecryptionProperties)
    (inp : EncryptedFooterInput) (pfx : String) (calls : List String)
    (h : reconcileAadPrefix p.aadPrefix p.hasAadPrefixVerifier inp.algo.aad =
      .ok (pfx, calls)) :
    parseEncryptedFooterEncryption (some p) inp =
      .ok { fileAad := pfx ++ inp.algo.aad.aadFileUnique,
            algorithm := inp.algo.algorithm,
            footerKeyMetadata := inp.keyMetadata,
            verifierCalls := calls } := by
  simp [parseEncryptedFooterEncryption, h]

/-- When the file stores a non-empty prefix and the caller supplies none or
the same one, reconciliation adopts the stored prefix. -/
theorem reconcile_ok_adopt (pp : String) (hv : Bool) (aad : AadMetadata)
    (h1 : aad.aadPrefix ≠ "") (h2 : pp = "" ∨ pp = aad.aadPrefix) :
    reconcileAadPrefix pp hv aad =
      .ok (aad.aadPrefix, if hv then [aad.aadPrefix] else []) := by
  have hcmp : ¬(pp ≠ "" ∧ pp ≠ aad.aadPrefix) := by tauto
  simp [reconcileAadPrefix, h1, hcmp]

/-- C2: for both footer variants of ParseMetaData, with a non-empty stored
prefix and a non-empty supplied prefix, opening fails with the
AAD-prefix-mismatch error exactly when the two differ byte for byte; with no
stored prefix, supply_aad_prefix set and no supplied prefix, opening fails
with the AAD-prefix-missing error; and whenever a non-empty stored prefix
passes reconciliation it is adopted as the final prefix. -/
theorem C2_aad_prefix_errors (p : FileDecryptionProperties)
    (inpA : PlaintextFooterEncryptionInput) (inpB : EncryptedFooterInput) :
    (inpA.algo.aad.aadPrefix ≠ "" → p.aadPrefix ≠ "" →
      (parsePlaintextFooterEncryption (some p) inpA = .error .aadPrefixMismatch ↔
        p.aadPrefix ≠ inpA.algo.aad.aadPrefix)) ∧
    (inpB.algo.aad.aadPrefix ≠ "" → p.aadPrefix ≠ "" →
      (parseEncryptedFooterEncryption (some p) inpB = .error .aadPrefixMismatch ↔
        p.aadPrefix ≠ inpB.algo.aad.aadPrefix)) ∧
    (inpA.algo.aad.aadPrefix = "" → inpA.algo.aad.supplyAadPrefix = true →
      p.aadPrefix = "" →
      parsePlaintextFooterEncryption (some p) inpA = .error .aadPrefixMissing) ∧
    (inpB.algo.aad.aadPrefix = "" → inpB.algo.aad.supplyAadPrefix = true →
      p.aadPrefix = "" →
      parseEncryptedFooterEncryption (some p) inpB = .error .aadPrefixMissing) ∧
    (∀ pfx calls, inpA.algo.aad.aadPrefix ≠ "" →
      reconcileAadPrefix p.aadPrefix p.hasAadPrefixVerifier inpA.algo.aad =
        .ok (pfx, calls) → pfx = inpA.algo.aad.aadPrefix) ∧
    (∀ pfx calls, inpB.algo.aad.aadPrefix ≠ "" →
      reconcileAadPrefix p.aadPrefix p.hasAadPrefixVerifier inpB.algo.aad =
        .ok (pfx, calls) → pfx = inpB.algo.aad.aadPrefix) := by
  refine ⟨?_, ?_, ?_, ?_, ?_, ?_⟩
  · intro h1 h2
    by_cases heq : p.aadPrefix = inpA.algo.aad.aadPrefix
    · have hrec := reconcile_ok_adopt p.aadPrefix p.hasAadPrefixVerifier
        inpA.algo.aad h1 (Or.inr heq)
      constructor
      · intro hx
        rcases parseA_after_reconcile p inpA _ _ hrec with h | h | h <;>
          rw [h] at hx <;> simp at hx
      · intro hx
        exact absurd heq hx
    · have hrec := (reconcile_mismatch_iff p.aadPrefix p.hasAadPrefixVerifier
        inpA.algo.aad h1 h2).mpr heq
      simp [parseA_reconcile_error p inpA _ hrec, heq]
  · intro h1 h2
    by_cases heq : p.aadPrefix = inpB.algo.aad.aadPrefix
    · have hrec := reconcile_ok_adopt p.aadPrefix p.hasAadPrefixVerifier
        inpB.algo.aad h1 (Or.inr heq)
      constructor
      · intro hx
        rw [parseB_after_reconcile p inpB _ _ hrec] at hx
        simp at hx
      · intro hx
        exact absurd heq hx
    · have hrec := (reconcile_mismatch_iff p.aadPrefix p.hasAadPrefixVerifier
        inpB.algo.aad h1 h2).mpr heq
      simp [parseB_reconcile_error p inpB _ hrec, heq]
  · intro h1 h2 h3
    exact parseA_reconcile_error p inpA _
      (reconcile_missing p.aadPrefix p.hasAadPrefixVerifier inpA.algo.aad h1 h2 h3)
  · intro h1 h2 h3
    exact parseB_reconcile_error p inpB _
      (reconcile_missing p.aadPrefix p.hasAadPrefixVerifier inpB.algo.aad h1 h2 h3)
  · intro pfx calls h1 h
    exact reconcile_adopts p.aadPrefix p.hasAadPrefixVerifier inpA.algo.aad
      pfx calls h1 h
  · intro pfx calls h1 h
    exact reconcile_adopts p.aadPrefix p.hasAadPrefixVerifier inpB.algo.aad
      pfx calls h1 h

/-- Witness for C2: stored prefix alpha, supplied prefix beta, mismatch. -/
theorem C2_aad_prefix_errors_witness :
    parsePlaintextFooterEncryption (some c2Props) c2InputA =
      .error .aadPrefixMismatch :=
  ((C2_aad_prefix_errors c2Props c2InputA c2InputB).1
    (by decide) (by decide)).mpr (by decide)

/-- C3: for every encrypted file successfully opened by either footer variant
of ParseMetaData, the file AAD recorded on the file decryptor equals the byte
concatenation of the final reconciled AAD prefix and the aad_file_unique bytes
of the file's encryption-algorithm descriptor. -/
theorem C3_file_aad_is_final_prefix_concat_unique (p : FileDecryptionProperties)
    (inpA : PlaintextFooterEncryptionInput) (inpB : EncryptedFooterInput) :
    (∀ st, parsePlaintextFooterEncryption (some p) inpA = .ok st →
      ∃ pfx calls,
        reconcileAadPrefix p.aadPrefix p.hasAadPrefixVerifier inpA.algo.aad =
          .ok (pfx, calls) ∧
        st.fileAad = pfx ++ inpA.algo.aad.aadFileUnique) ∧
    (∀ st, parseEncryptedFooterEncryption (some p) inpB = .ok st →
      ∃ pfx calls,
        reconcileAadPrefix p.aadPrefix p.hasAadPrefixVerifier inpB.algo.aad =
          .ok (pfx, calls) ∧
        st.fileAad = pfx ++ inpB.algo.aad.aadFileUnique) := by
  constructor
  · intro st hst
    rcases hrec : reconcileAadPrefix p.aadPrefix p.hasAadPrefixVerifier
        inpA.algo.aad with e | ⟨pfx, calls⟩
    · rw [parseA_reconcile_error p inpA e hrec] at hst
      simp at hst
    · refine ⟨pfx, calls, rfl, ?_⟩
      rcases parseA_after_reconcile p inpA pfx calls hrec with h | h | h <;>
        rw [h] at hst
      · simp at hst
      · simp at hst
      · obtain rfl := by simpa using hst.symm
        rfl
  · intro st hst
    rcases hrec : reconcileAadPrefix p.aadPrefix p.hasAadPrefixVerifier
        inpB.algo.aad with e | ⟨pfx, calls⟩
    · rw [parseB_reconcile_error p inpB e hrec] at hst
      simp at hst
    · refine ⟨pfx, calls, rfl, ?_⟩
      rw [parseB_after_reconcile p inpB pfx calls hrec] at hst
      obtain rfl := by simpa using hst.symm
      rfl

/-- Witness for C3: a concrete successful PAR1 opening whose recorded file AAD
is the stored prefix tester followed by the unique bytes abcdefgh. -/
theorem C3_file_aad_is_final_prefix_concat_unique_witness :
    ∃ pfx calls,
      reconcileAadPrefix c6aProps.aadPrefix c6aProps.hasAadPrefixVerifier
        c6aInput.algo.aad = .ok (pfx, calls) ∧
      ({ fileAad := "testerabcdefgh", algorithm := ParquetCipher.AES_GCM_V1,
         footerKeyMetadata := "", verifierCalls := ["tester"] } :
          FileDecryptorState).fileAad = pfx ++ c6aInput.algo.aad.aadFileUnique :=
  (C3_file_aad_is_final_prefix_concat_unique c6aProps c6aInput c2InputB).1 _ rfl

/-- C4: for a PAR1 file declaring an encryption algorithm, with
check_plaintext_footer_integrity set (its default, DEFAULT_CHECK_SIGNATURE, is
true), opening fails unless the stored metadata length exceeds the length the
metadata parser consumed by exactly 28 bytes, and fails with the
footer-signature-invalid error when verification of the 28-byte nonce-and-tag
trailer with the footer signing encryptor does not succeed. -/
theorem C4_plaintext_footer_integrity (p : FileDecryptionProperties)
    (inp : PlaintextFooterEncryptionInput)
    (hchk : p.checkPlaintextFooterIntegrity = true)
    (hle : inp.readMetadataLen ≤ inp.metadataLen)
    (hlt : inp.metadataLen < U32_MOD) :
    DEFAULT_CHECK_SIGNATURE = true ∧
    FileDecryptionPropertiesBuilder.init.checkPlaintextFooterIntegrity = true ∧
    (inp.metadataLen ≠ inp.readMetadataLen + 28 →
      ∀ st, parsePlaintextFooterEncryption (some p) inp ≠ .ok st) ∧
    (∀ pfx calls,
      reconcileAadPrefix p.aadPrefix p.hasAadPrefixVerifier inp.algo.aad =
        .ok (pfx, calls) →
      inp.metadataLen = inp.readMetadataLen + 28 → inp.verifyOk = false →
      parsePlaintextFooterEncryption (some p) inp =
        .error .footerSignatureInvalid) := by
  have hmod : (inp.metadataLen + U32_MOD - inp.readMetadataLen) % U32_MOD =
      inp.metadataLen - inp.readMetadataLen :=
    u32_sub_mod inp.metadataLen inp.readMetadataLen hle hlt
  refine ⟨rfl, rfl, ?_, ?_⟩
  · intro hne st
    rcases hrec : reconcileAadPrefix p.aadPrefix p.hasAadPrefixVerifier
        inp.algo.aad with e | ⟨pfx, calls⟩
    · rw [parseA_reconcile_error p inp e hrec]
      simp
    · have hcond : (inp.metadataLen + U32_MOD - inp.readMetadataLen) % U32_MOD ≠ 28 := by
        rw [hmod]
        omega
      simp only [parsePlaintextFooterEncryption, hrec, hchk, if_true, hcond,
        if_pos, ne_eq]
      simp
  · intro pfx calls hrec heq hv
    have hcond : ¬((inp.metadataLen + U32_MOD - inp.readMetadataLen) % U32_MOD ≠ 28) := by
      rw [hmod]
      omega
    simp only [parsePlaintextFooterEncryption, hrec, hchk, if_true]
    rw [if_neg hcond]
    simp [hv]

/-- Witness for C4: stored length 128, consumed length 100 (difference exactly
28) and a failing trailer verification yield the footer-signature error. -/
theorem C4_plaintext_footer_integrity_witness :
    parsePlaintextFooterEncryption (some c4Props) c4Input =
      .error .footerSignatureInvalid :=
  (C4_plaintext_footer_integrity c4Props c4Input rfl (by decide)
      (by decide)).2.2.2 "tester" [] (by rfl) rfl rfl

/-- C6 counterexample: the file stores no AAD prefix, supply_aad_prefix is
set, the caller supplies the prefix tester and an AAD prefix verifier is
configured; opening succeeds with final prefix tester, yet the verifier is
never invoked, because the invocation sits inside the branch taken only when
the file stores a non-empty prefix. -/
theorem C6_counterexample_verifier_not_invoked :
    c6Props.hasAadPrefixVerifier = true ∧
    c6Props.aadPrefix = "tester" ∧
    c6Input.algo.aad.aadPrefix = "" ∧
    parsePlaintextFooterEncryption (some c6Props) c6Input =
      .ok { fileAad := "testerabcdefgh", algorithm := .AES_GCM_V1,
            footerKeyMetadata := "", verifierCalls := [] } :=
  ⟨rfl, rfl, rfl, rfl⟩

/-- C6 amended: for both footer variants, on every successful opening the
configured AAD prefix verifier is invoked with the final (stored) prefix
exactly when the file stores a non-empty AAD prefix and a verifier is
configured; when the file stores no prefix the verifier is not invoked, even
if the caller supplied the prefix. -/
theorem C6_amended_verifier_invocation (p : FileDecryptionProperties)
    (inpA : PlaintextFooterEncryptionInput) (inpB : EncryptedFooterInput) :
    (∀ st, parsePlaintextFooterEncryption (some p) inpA = .ok st →
      st.verifierCalls =
        if inpA.algo.aad.aadPrefix ≠ "" ∧ p.hasAadPrefixVerifier = true then
          [inpA.algo.aad.aadPrefix]
        else []) ∧
    (∀ st, parseEncryptedFooterEncryption (some p) inpB = .ok st →
      st.verifierCalls =
        if inpB.algo.aad.aadPrefix ≠ "" ∧ p.hasAadPrefixVerifier = true then
          [inpB.algo.aad.aadPrefix]
        else []) := by
  constructor
  · intro st hst
    rcases hrec : reconcileAadPrefix p.aadPrefix p.hasAadPrefixVerifier
        inpA.algo.aad with e | ⟨pfx, calls⟩
    · rw [parseA_reconcile_error p inpA e hrec] at hst
      simp at hst
    · rcases parseA_after_reconcile p inpA pfx calls hrec with h | h | h <;>
        rw [h] at hst
      · simp at hst
      · simp at hst
      · obtain rfl := by simpa using hst.symm
        exact reconcile_calls p.aadPrefix p.hasAadPrefixVerifier inpA.algo.aad
          pfx calls hrec
  · intro st hst
    rcases hrec : reconcileAadPrefix p.aadPrefix p.hasAadPrefixVerifier
        inpB.algo.aad with e | ⟨pfx, calls⟩
    · rw [parseB_reconcile_error p inpB e hrec] at hst
      simp at hst
    · rw [parseB_after_reconcile p inpB pfx calls hrec] at hst
      obtain rfl := by simpa using hst.symm
      exact reconcile_calls p.aadPrefix p.hasAadPrefixVerifier inpB.algo.aad
        pfx calls hrec

/-- Witness for the amended C6: a stored prefix tester with a configured
verifier records exactly one verifier invocation, with tester. -/
theorem C6_amended_verifier_invocation_witness :
    ({ fileAad := "testerabcdefgh", algorithm := ParquetCipher.AES_GCM_V1,
       footerKeyMetadata := "", verifierCalls := ["tester"] } :
        FileDecryptorState).verifierCalls =
      if c6aInput.algo.aad.aadPrefix ≠ "" ∧ c6aProps.hasAadPrefixVerifier = true
      then [c6aInput.algo.aad.aadPrefix]
      else [] :=
  (C6_amended_verifier_invocation c6aProps c6aInput c2InputB).1 _ rfl
